import Mathlib

/-!
Shallow embedding of the snake game implemented in `src/main.go`
(repository mikenye/snake, Go package `main`).

Modelling conventions:
* Go `int` is modelled as `Int` (no overflow is relevant at game scales).
* The singly linked segment chain (a `Head` pointer whose nodes are
  linked by `next`) is modelled as a head segment plus the list of the
  remaining segments (`SnakeBody.head :: SnakeBody.rest`); the stored
  `length` field is kept separately, exactly as in the Go struct.
* `math/rand` is modelled by an explicit stream `r : ℕ → ℕ` of draws
  together with a draw index `k`; the Go call `rand.Intn n` performed at
  draw index `k` yields `↑(r k % n.toNat)`.  Loops whose termination
  depends on the stream (`SpawnFood`, the turn loop of
  `RandomSnakeDirection`, the growth loop of `ChangeState`) take
  explicit fuel and return `Option`; `none` models non-termination
  within the given fuel.
* Rendering, asset loading and key polling are outside the embedded
  core; key presses relevant to `UpdateInGame` are passed in as a
  record of booleans.
-/

namespace Snake

/-- Go type `snakeDirection` (`uint8`) with its constants `UP`, `DOWN`,
`LEFT`, `RIGHT`. -/
inductive snakeDirection where
  | UP
  | DOWN
  | LEFT
  | RIGHT
deriving DecidableEq, Repr

/-- Go type `gameState` (`uint8`) with its five constants. -/
inductive gameState where
  | StateMainMenu
  | StateGameStart
  | StateInGame
  | StateGameEnd
  | StateGameOver
deriving DecidableEq, Repr

-- Snake tile constants (Go `snakeTile` is `int`; 4 type bits + 4 rotation bits).

def SnakeTypeHead : Int := 0b00000000

def SnakeTypeBody : Int := 0b00010000

def SnakeTypeBend : Int := 0b00100000

def SnakeTypeTail : Int := 0b01000000

def SnakeRotationNone : Int := 0b00000000

def SnakeRotationCCW90 : Int := 0b00000001

def SnakeRotationCW90 : Int := 0b00000010

def SnakeRotation180 : Int := 0b00000100

def SnakeHeadUp : Int := SnakeTypeHead + SnakeRotationNone

def SnakeHeadDown : Int := SnakeTypeHead + SnakeRotation180

def SnakeHeadLeft : Int := SnakeTypeHead + SnakeRotationCCW90

def SnakeHeadRight : Int := SnakeTypeHead + SnakeRotationCW90

def SnakeBodyUp : Int := SnakeTypeBody + SnakeRotationNone

def SnakeBodyDown : Int := SnakeTypeBody + SnakeRotation180

def SnakeBodyLeft : Int := SnakeTypeBody + SnakeRotationCCW90

def SnakeBodyRight : Int := SnakeTypeBody + SnakeRotationCW90

def SnakeBendLD : Int := SnakeTypeBend + SnakeRotationNone

def SnakeBendRU : Int := SnakeTypeBend + SnakeRotation180

def SnakeBendRD : Int := SnakeTypeBend + SnakeRotationCCW90

def SnakeBendLU : Int := SnakeTypeBend + SnakeRotationCW90

def SnakeTailUp : Int := SnakeTypeTail + SnakeRotationNone

def SnakeTailDown : Int := SnakeTypeTail + SnakeRotation180

def SnakeTailLeft : Int := SnakeTypeTail + SnakeRotationCCW90

def SnakeTailRight : Int := SnakeTypeTail + SnakeRotationCW90

/-- Go struct `Food`. -/
structure Food where
  x : Int
  y : Int
deriving DecidableEq, Repr

/-- Go struct `SnakeBodySegment`, minus the `next` pointer: the chain is
represented as a list inside `SnakeBody`. -/
structure SnakeBodySegment where
  x : Int
  y : Int
  facing : snakeDirection
  tile : Int
  skeleton : Bool
deriving DecidableEq, Repr

/-- Go struct `SnakeBody`: the non-nil `Head` node plus the nodes reached
from `Head.next` (in order), the `grow` flag and the stored `length`. -/
structure SnakeBody where
  head : SnakeBodySegment
  rest : List SnakeBodySegment
  grow : Bool
  length : Int
deriving DecidableEq, Repr

/-- The full segment chain, head first, as walked by the Go loops that
start at `SnakeBody.Head`. -/
def SnakeBody.segments (b : SnakeBody) : List SnakeBodySegment :=
  b.head :: b.rest

/-- Go struct `Game`, restricted to the non-rendering fields used by the
embedded core (the `ebiten.Image` fields belong to the render boundary). -/
structure Game where
  state : gameState
  width : Int
  height : Int
  SnakeBody : SnakeBody
  SnakeDirection : snakeDirection
  food : Food
  ticks : Int
  ticksPerMovement : Int
  score : Int
  countDownNum : Int
  countDownTicks : Int
  skeleTicks : Int
  skeleTicksPerSegment : Int
  tongueShow : Bool
  tongueTicks : Int
  tongueTicksMin : Int
deriving DecidableEq, Repr

/-- One `rand.Intn n` draw taken at index `k` of the stream `r`.  Go
panics for `n ≤ 0`; the embedding is total (`% 0` is the identity), and
every use below keeps `n` positive. -/
def intn (r : ℕ → ℕ) (k : ℕ) (n : Int) : Int :=
  Int.ofNat (r k % n.toNat)

/-- Go `SnakeGetNextPos`: next head position of `b` when moving in `d`,
with the two sequential wrap checks per axis. -/
def SnakeGetNextPos (g : Game) (b : SnakeBody) (d : snakeDirection) : Int × Int :=
  let p : Int × Int :=
    match d with
    | .UP => (b.head.x, b.head.y - 1)
    | .DOWN => (b.head.x, b.head.y + 1)
    | .LEFT => (b.head.x - 1, b.head.y)
    | .RIGHT => (b.head.x + 1, b.head.y)
  let x := if p.1 < 0 then g.width - 1 else p.1
  let x := if x > g.width - 1 then 0 else x
  let y := if p.2 < 0 then g.height - 1 else p.2
  let y := if y > g.height - 1 then 0 else y
  (x, y)

/-- Go `SnakeCheckFood`, at its only call site (`SnakeMove`), where the
body argument is the game's own snake: if the head sits on the food,
increment the score and set the grow flag. -/
def SnakeCheckFood (g : Game) : Bool × Game :=
  let seg := g.SnakeBody.head
  if seg.x = g.food.x ∧ seg.y = g.food.y then
    (true, { g with
      score := g.score + 1
      SnakeBody := { g.SnakeBody with grow := true } })
  else
    (false, g)

/-- The do-while scan loop of Go `SnakeCheckDeath`: does any segment of
the list sit at `(x, y)`?  (In Go the loop body runs before the nil
check; on an empty list Go would dereference nil — the embedding
returns `false` there, and every claim keeps the scanned list
nonempty.) -/
def scanSegs (x y : Int) : List SnakeBodySegment → Bool
  | [] => false
  | s :: rest => if s.x = x ∧ s.y = y then true else scanSegs x y rest

/-- Go `SnakeCheckDeath`: project the next head position of the *argument*
body `b`, then scan the segments after the head of the *game's* snake
(`g.SnakeBody.Head.next` onwards) for that cell. -/
def SnakeCheckDeath (g : Game) (b : SnakeBody) (d : snakeDirection) : Bool :=
  let xy := SnakeGetNextPos g b d
  scanSegs xy.1 xy.2 g.SnakeBody.rest

/-- The tail-orientation switch at the end of Go `SnakeRemoveTail`
(`math.Abs` of an integer difference is modelled with `Int.natAbs`).
When `prevSeg` and `seg` coincide no case fires and the tile is kept. -/
def tailTileFor (prevSeg seg : SnakeBodySegment) : Int :=
  if prevSeg.x < seg.x then
    (if (prevSeg.x - seg.x).natAbs = 1 then SnakeTailLeft else SnakeTailRight)
  else if prevSeg.x > seg.x then
    (if (prevSeg.x - seg.x).natAbs = 1 then SnakeTailRight else SnakeTailLeft)
  else if prevSeg.y < seg.y then
    (if (prevSeg.y - seg.y).natAbs = 1 then SnakeTailUp else SnakeTailDown)
  else if prevSeg.y > seg.y then
    (if (prevSeg.y - seg.y).natAbs = 1 then SnakeTailDown else SnakeTailUp)
  else
    seg.tile

/-- Go `SnakeRemoveTail`.  The walk (`for i := 1; i < length-1; i++`)
runs `max (length-2) 0` times, leaving `seg` at index
`k = (length-2).toNat` and `prevSeg` at index `k-1` (both at the head
when the loop does not run); `seg.next = nil` truncates the chain after
index `k`; the stored length is decremented; finally the new tail tile
is derived from `prevSeg`/`seg`.  (If the stored length exceeded the
actual chain length Go would dereference nil; the embedding clamps with
`getD`, and every claim uses consistent bodies.) -/
def SnakeRemoveTail (b : SnakeBody) : SnakeBody :=
  let full := b.segments
  let k := (b.length - 2).toNat
  let seg := full.getD k b.head
  let prevSeg := if k = 0 then b.head else full.getD (k - 1) b.head
  let seg2 := { seg with tile := tailTileFor prevSeg seg }
  let newFull := full.take k ++ [seg2]
  { head := newFull.headD b.head
    rest := newFull.tail
    grow := b.grow
    length := b.length - 1 }

/-- Go `SnakeAdvance`: retile the old head according to the turn, then
prepend a fresh head segment at the next position. -/
def SnakeAdvance (g : Game) (b : SnakeBody) (d : snakeDirection) : SnakeBody :=
  let headTile : Int :=
    match d with
    | .UP => SnakeHeadUp
    | .DOWN => SnakeHeadDown
    | .LEFT => SnakeHeadLeft
    | .RIGHT => SnakeHeadRight
  let oldHeadTile : Int :=
    match d, b.head.facing with
    | .UP, .LEFT => SnakeBendRU
    | .UP, .RIGHT => SnakeBendLU
    | .UP, _ => SnakeBodyUp
    | .DOWN, .LEFT => SnakeBendRD
    | .DOWN, .RIGHT => SnakeBendLD
    | .DOWN, _ => SnakeBodyDown
    | .LEFT, .UP => SnakeBendLD
    | .LEFT, .DOWN => SnakeBendLU
    | .LEFT, _ => SnakeBodyLeft
    | .RIGHT, .UP => SnakeBendRD
    | .RIGHT, .DOWN => SnakeBendRU
    | .RIGHT, _ => SnakeBodyRight
  let xy := SnakeGetNextPos g b d
  let newHead : SnakeBodySegment :=
    { x := xy.1, y := xy.2, facing := d, tile := headTile, skeleton := false }
  { head := newHead
    rest := { b.head with tile := oldHeadTile } :: b.rest
    grow := b.grow
    length := b.length + 1 }

/-- Go `SpawnSnake`: three vertically aligned segments facing up, the
head at the given origin (the Go receiver is unused). -/
def SpawnSnake (startXPos startYPos : Int) : SnakeBody :=
  let segTail : SnakeBodySegment :=
    { x := startXPos, y := startYPos + 2, facing := .UP, tile := SnakeTailUp, skeleton := false }
  let segMiddle : SnakeBodySegment :=
    { x := startXPos, y := startYPos + 1, facing := .UP, tile := SnakeBodyUp, skeleton := false }
  let segHead : SnakeBodySegment :=
    { x := startXPos, y := startYPos, facing := .UP, tile := SnakeHeadUp, skeleton := false }
  { head := segHead, rest := [segMiddle, segTail], grow := false, length := 3 }

/-- Go `SpawnFood`: repeatedly draw `x := rand.Intn(width-1)` and
`y := rand.Intn(height-1)` (two draws per attempt) until the cell is not
occupied by any segment of the game's snake, then store it as the food.
Fuel bounds the number of attempts. -/
def SpawnFood (g : Game) (r : ℕ → ℕ) : ℕ → ℕ → Option (Game × ℕ)
  | _, 0 => none
  | k, fuel + 1 =>
    let x := intn r k (g.width - 1)
    let y := intn r (k + 1) (g.height - 1)
    let taken := g.SnakeBody.segments.any fun s => s.x = x ∧ s.y = y
    if taken then
      SpawnFood g r (k + 2) fuel
    else
      some ({ g with food := { x := x, y := y } }, k + 2)

/-- The retry loop of Go `RandomSnakeDirection`: draw
`d := snakeDirection(rand.Intn(3)+1)` — which can only be `UP`, `DOWN`
or `LEFT` — until `d` is perpendicular to the current direction. -/
def randDirLoop (cur : snakeDirection) (r : ℕ → ℕ) : ℕ → ℕ → Option (snakeDirection × ℕ)
  | _, 0 => none
  | k, fuel + 1 =>
    let d : snakeDirection :=
      if intn r k 3 = 0 then .UP else if intn r k 3 = 1 then .DOWN else .LEFT
    match cur with
    | .UP | .DOWN =>
      if d = .LEFT ∨ d = .RIGHT then some (d, k + 1) else randDirLoop cur r (k + 1) fuel
    | .LEFT | .RIGHT =>
      if d = .UP ∨ d = .DOWN then some (d, k + 1) else randDirLoop cur r (k + 1) fuel

/-- Go `RandomSnakeDirection`: keep the current direction when
`rand.Intn(100) <= 50`, otherwise loop drawing a perpendicular
direction. -/
def RandomSnakeDirection (currentDirection : snakeDirection) (r : ℕ → ℕ)
    (k fuel : ℕ) : Option (snakeDirection × ℕ) :=
  if intn r k 100 ≤ 50 then
    some (currentDirection, k + 1)
  else
    randDirLoop currentDirection r (k + 1) fuel

/-- Go `SpawnSnake`/`SpawnFood` composition in `Reset`: reset speed,
direction, countdown, score and skeleton progress, respawn the snake at
the board centre (Go integer division truncates toward zero, hence
`Int.div`), then place fresh food. -/
def Reset (g : Game) (r : ℕ → ℕ) (k fuel : ℕ) : Option (Game × ℕ) :=
  let g1 := { g with
    ticksPerMovement := (30 : Int)
    SnakeDirection := snakeDirection.UP
    countDownNum := (3 : Int)
    score := (0 : Int)
    skeleTicks := (0 : Int) }
  let g2 := { g1 with SnakeBody := SpawnSnake (Int.tdiv g.width 2) (Int.tdiv g.height 2) }
  SpawnFood g2 r k fuel

/-- The decorative growth loop of Go `ChangeState(StateMainMenu)`:
`for i := 0; i <= rand.Intn(100); i++ { SnakeAdvance(..., RandomSnakeDirection(...)) }`.
The Go loop condition redraws `rand.Intn(100)` on every test, so each
test consumes one draw; each executed body consumes the draws of
`RandomSnakeDirection`.  Fuel bounds the iteration count. -/
def menuGrowLoop (r : ℕ → ℕ) : ℕ → ℕ → Game → ℕ → Option (Game × ℕ)
  | _, 0, _, _ => none
  | i, fuel + 1, g, k =>
    if (Int.ofNat i) ≤ intn r k 100 then
      match RandomSnakeDirection g.SnakeBody.head.facing r (k + 1) fuel with
      | none => none
      | some (d, k') =>
        menuGrowLoop r (i + 1) fuel { g with SnakeBody := SnakeAdvance g g.SnakeBody d } k'
    else
      some (g, k + 1)

/-- Go `ChangeState`: run the per-state entry actions, then set the
state field. -/
def ChangeState (g : Game) (s : gameState) (r : ℕ → ℕ) (k fuel : ℕ) : Option (Game × ℕ) :=
  match s with
  | .StateMainMenu =>
    match Reset g r k fuel with
    | none => none
    | some (g1, k1) =>
      match menuGrowLoop r 0 fuel g1 k1 with
      | none => none
      | some (g2, k2) => some ({ g2 with ticksPerMovement := (5 : Int), state := s }, k2)
  | .StateGameStart =>
    match Reset g r k fuel with
    | none => none
    | some (g1, k1) => some ({ g1 with state := s }, k1)
  | _ => some ({ g with state := s }, k)

/-- Go `SnakeMove`, at the call sites that pass the game's own snake
(`g.SnakeMove(g.SnakeBody, ...)`, as in every `Update*` function): check
death first (and bail out into `StateGameEnd` without touching the
body), otherwise remove the tail unless growing, advance, consume the
grow flag when it was set, and finally run the food check. -/
def SnakeMove (g : Game) (d : snakeDirection) (checkDeath checkFood : Bool)
    (r : ℕ → ℕ) (k fuel : ℕ) : Option (Game × ℕ) :=
  if checkDeath ∧ SnakeCheckDeath g g.SnakeBody d then
    ChangeState g .StateGameEnd r k fuel
  else
    let b1 :=
      if g.SnakeBody.grow then
        { SnakeAdvance g g.SnakeBody d with grow := false }
      else
        SnakeAdvance g (SnakeRemoveTail g.SnakeBody) d
    let g1 := { g with SnakeBody := b1 }
    if checkFood then
      let fc := SnakeCheckFood g1
      if fc.1 then
        let g2 := { fc.2 with SnakeBody := { fc.2.SnakeBody with grow := true } }
        SpawnFood g2 r k fuel
      else
        some (fc.2, k)
    else
      some (g1, k)

/-- The arrow-key states polled at the top of Go `UpdateInGame`. -/
structure Keys where
  up : Bool
  down : Bool
  left : Bool
  right : Bool
deriving DecidableEq, Repr

/-- The input switch of Go `UpdateInGame` (first pressed key in the
order Up, Down, Left, Right wins; a request is honoured only when
perpendicular to the head's facing). -/
def applyInput (g : Game) (keys : Keys) : Game :=
  if keys.up then
    if g.SnakeBody.head.facing = .LEFT ∨ g.SnakeBody.head.facing = .RIGHT then
      { g with SnakeDirection := snakeDirection.UP } else g
  else if keys.down then
    if g.SnakeBody.head.facing = .LEFT ∨ g.SnakeBody.head.facing = .RIGHT then
      { g with SnakeDirection := snakeDirection.DOWN } else g
  else if keys.left then
    if g.SnakeBody.head.facing = .UP ∨ g.SnakeBody.head.facing = .DOWN then
      { g with SnakeDirection := snakeDirection.LEFT } else g
  else if keys.right then
    if g.SnakeBody.head.facing = .UP ∨ g.SnakeBody.head.facing = .DOWN then
      { g with SnakeDirection := snakeDirection.RIGHT } else g
  else
    g

/-- Go `RandomSnakeTongue`: a tongue animation timer; consumes one draw
only when the timer fires with the tongue hidden. -/
def RandomSnakeTongue (g : Game) (r : ℕ → ℕ) (k : ℕ) : Game × ℕ :=
  let g1 := { g with tongueTicks := g.tongueTicks + 1 }
  if g1.tongueTicks ≥ g1.tongueTicksMin then
    if g1.tongueShow then
      ({ g1 with tongueShow := false, tongueTicks := (0 : Int) }, k)
    else if intn r k 10000 > 7000 then
      ({ g1 with tongueShow := true, tongueTicks := (0 : Int) }, k + 1)
    else
      ({ g1 with tongueTicks := (0 : Int) }, k + 1)
  else
    (g1, k)

/-- Go `UpdateInGame`: apply input, advance the movement timer, and when
it fires move the snake (death and food checks on) and recompute the
speed from the score (`40 - math.Min(score, 33)`); finally run the
tongue animation. -/
def UpdateInGame (g : Game) (keys : Keys) (r : ℕ → ℕ) (k fuel : ℕ) : Option (Game × ℕ) :=
  let g1 := applyInput g keys
  let g2 := { g1 with ticks := g1.ticks + 1 }
  if g2.ticks ≥ g2.ticksPerMovement then
    let g3 := { g2 with ticks := (0 : Int) }
    match SnakeMove g3 g3.SnakeDirection true true r k fuel with
    | none => none
    | some (g4, k4) =>
      let g5 := { g4 with ticksPerMovement := 40 - min g4.score 33 }
      some (RandomSnakeTongue g5 r k4)
  else
    some (RandomSnakeTongue g2 r k)

/-- The head-to-tail scan of Go `UpdateEndGame`: mark the first
non-skeleton segment; `none` means every segment was already a
skeleton (`finished` stayed true). -/
def markFirstNonSkeleton : List SnakeBodySegment → Option (List SnakeBodySegment)
  | [] => none
  | s :: rest =>
    if s.skeleton then
      match markFirstNonSkeleton rest with
      | none => none
      | some rest2 => some (s :: rest2)
    else
      some ({ s with skeleton := true } :: rest)

/-- Go `UpdateEndGame`: every `skeleTicksPerSegment` ticks turn one more
segment into a skeleton, head to tail; once all segments are skeletons,
change state to `StateGameOver`. -/
def UpdateEndGame (g : Game) (r : ℕ → ℕ) (k fuel : ℕ) : Option (Game × ℕ) :=
  let g1 := { g with skeleTicks := g.skeleTicks + 1 }
  if g1.skeleTicks ≥ g1.skeleTicksPerSegment then
    let g2 := { g1 with skeleTicks := (0 : Int) }
    match markFirstNonSkeleton g2.SnakeBody.segments with
    | some newSegs =>
      some ({ g2 with SnakeBody := { g2.SnakeBody with
        head := newSegs.headD g2.SnakeBody.head
        rest := newSegs.tail } }, k)
    | none => ChangeState g2 .StateGameOver r k fuel
  else
    some (g1, k)

/-- `n` consecutive engine ticks spent in the dying phase: the top-level
Go `Update` dispatches to `UpdateEndGame` while the state is
`StateGameEnd`, so iterating `UpdateEndGame` is the tick sequence of the
dying phase (the runs below stop at the tick that leaves the phase). -/
def iterEndGame : ℕ → Game → (ℕ → ℕ) → ℕ → ℕ → Option (Game × ℕ)
  | 0, g, _, k, _ => some (g, k)
  | n + 1, g, r, k, fuel =>
    match UpdateEndGame g r k fuel with
    | none => none
    | some (g1, k1) => iterEndGame n g1 r k1 fuel

-- Concrete fixtures used by witnesses and counterexamples.

/-- The all-zero random stream. -/
def rzero : ℕ → ℕ := fun _ => 0

/-- A game on the default 27×20 board (`NewGame(27, 20)` in `main`),
with the given state and snake. -/
def mkGame (st : gameState) (b : SnakeBody) : Game :=
  { state := st
    width := 27
    height := 20
    SnakeBody := b
    SnakeDirection := .UP
    food := { x := 1, y := 1 }
    ticks := 0
    ticksPerMovement := 30
    score := 0
    countDownNum := 3
    countDownTicks := 0
    skeleTicks := 0
    skeleTicksPerSegment := 2
    tongueShow := false
    tongueTicks := 0
    tongueTicksMin := 20 }

/-- An in-game session whose snake was just spawned at (5, 5). -/
def c1G : Game := mkGame .StateInGame (SpawnSnake 5 5)

/-- An in-game session one tick away from a movement step. -/
def c4G : Game := { mkGame .StateInGame (SpawnSnake 13 10) with ticks := 29 }

/-- No arrow key pressed. -/
def c4K : Keys := { up := false, down := false, left := false, right := false }

/-- A tiny 3×3 board with the snake occupying column 0. -/
def c6G : Game := { mkGame .StateInGame (SpawnSnake 0 0) with width := 3, height := 3 }

/-- A five-segment body, none of it skeletal. -/
def c7B : SnakeBody :=
  { head := { x := 2, y := 2, facing := .UP, tile := SnakeHeadUp, skeleton := false }
    rest := [{ x := 2, y := 3, facing := .UP, tile := SnakeBodyUp, skeleton := false },
             { x := 2, y := 4, facing := .UP, tile := SnakeBodyUp, skeleton := false },
             { x := 2, y := 5, facing := .UP, tile := SnakeBodyUp, skeleton := false },
             { x := 2, y := 6, facing := .UP, tile := SnakeTailUp, skeleton := false }]
    grow := false
    length := 5 }

/-- A session that just entered the dying phase with a length-5 snake. -/
def c7G : Game := mkGame .StateGameEnd c7B

/-- A degenerate single-segment body (invariant-violating input for
`SnakeRemoveTail`). -/
def c8B : SnakeBody :=
  { head := { x := 0, y := 0, facing := .UP, tile := SnakeHeadUp, skeleton := false }
    rest := []
    grow := false
    length := 1 }

/-- A two-segment body that is *not* the active snake of the games below;
its head at (5, 5) projects to (5, 4) when moving up. -/
def c10B : SnakeBody :=
  { head := { x := 5, y := 5, facing := .UP, tile := SnakeHeadUp, skeleton := false }
    rest := [{ x := 5, y := 6, facing := .UP, tile := SnakeBodyUp, skeleton := false }]
    grow := false
    length := 2 }

/-- An active snake whose non-head segments contain (5, 4). -/
def c10B1 : SnakeBody :=
  { head := { x := 9, y := 9, facing := .UP, tile := SnakeHeadUp, skeleton := false }
    rest := [{ x := 5, y := 4, facing := .UP, tile := SnakeBodyUp, skeleton := false }]
    grow := false
    length := 2 }

/-- An active snake whose non-head segments avoid (5, 4). -/
def c10B2 : SnakeBody :=
  { head := { x := 9, y := 9, facing := .UP, tile := SnakeHeadUp, skeleton := false }
    rest := [{ x := 8, y := 8, facing := .UP, tile := SnakeBodyUp, skeleton := false }]
    grow := false
    length := 2 }

/-- A game whose active snake is `c10B1`. -/
def c10G : Game := mkGame .StateInGame c10B1

/-- The same game with the active snake replaced by `c10B2`. -/
def c10G2 : Game := { c10G with SnakeBody := c10B2 }

-- Specification-side definitions (these follow the wording of the
-- claims, to be compared with the code-side functions above).

/-- Spec wording of `CheckSelfCollision`: the projected next head cell
equals the cell of some current segment other than the head. -/
def selfCollisionSpec (g : Game) (d : snakeDirection) : Prop :=
  ∃ s ∈ g.SnakeBody.rest,
    s.x = (SnakeGetNextPos g g.SnakeBody d).1 ∧
    s.y = (SnakeGetNextPos g g.SnakeBody d).2

/-- Spec wording of the non-colliding `Step` protocol: a non-growth call
performs `RemoveTail` then `Advance` and preserves both the stored
length and the chain length; a growth call performs only `Advance`,
nets +1 on both, and (before any food check re-sets it) leaves the grow
flag cleared. -/
def stepLengthSpec (g : Game) (d : snakeDirection) (cd : Bool)
    (r : ℕ → ℕ) (k fuel : ℕ) : Prop :=
  (∀ cf g' k', SnakeMove g d cd cf r k fuel = some (g', k') →
    (g.SnakeBody.grow = false →
      g'.SnakeBody.length = g.SnakeBody.length ∧
      g'.SnakeBody.segments.length = g.SnakeBody.segments.length) ∧
    (g.SnakeBody.grow = true →
      g'.SnakeBody.length = g.SnakeBody.length + 1 ∧
      g'.SnakeBody.segments.length = g.SnakeBody.segments.length + 1)) ∧
  (SnakeMove g d cd false r k fuel = some ({ g with SnakeBody :=
    (if g.SnakeBody.grow then
      { SnakeAdvance g g.SnakeBody d with grow := false }
    else
      SnakeAdvance g (SnakeRemoveTail g.SnakeBody) d) }, k)) ∧
  (∀ g' k', SnakeMove g d cd false r k fuel = some (g', k') →
    g'.SnakeBody.grow = false)

/-- Spec wording of the speed law: ticks-per-move equals
`max (40 - score) 7`. -/
def speedLawSpec (g : Game) : Prop :=
  g.ticksPerMovement = max (40 - g.score) 7

/-- What `SpawnFood` guarantees about a terminating run: the food is on
no segment of the active snake, and — the amended part — its coordinates
are sampled from `[0, width-2] × [0, height-2]` (the `rand.Intn` bounds
are `width-1` and `height-1`), not from the whole grid. -/
def foodSpawnSpec (g : Game) : Prop :=
  ∀ r k fuel g' k', SpawnFood g r k fuel = some (g', k') →
    (∀ s ∈ g.SnakeBody.segments, ¬(s.x = g'.food.x ∧ s.y = g'.food.y)) ∧
    0 ≤ g'.food.x ∧ g'.food.x ≤ g.width - 2 ∧
    0 ≤ g'.food.y ∧ g'.food.y ≤ g.height - 2

/-- Every free cell of the sampled range `[0, width-2] × [0, height-2]`
is reachable by some random stream in one attempt. -/
def foodReachSpec (g : Game) : Prop :=
  ∀ x y : Int, 0 ≤ x → x ≤ g.width - 2 → 0 ≤ y → y ≤ g.height - 2 →
    (∀ s ∈ g.SnakeBody.segments, ¬(s.x = x ∧ s.y = y)) →
    SpawnFood g (fun i => List.getD [x.toNat, y.toNat] i 0) 0 1 =
      some ({ g with food := { x := x, y := y } }, 2)

-- Helper lemmas.

theorem headD_cons_tail {α : Type} (l : List α) (d : α) (h : l ≠ []) :
    l.headD d :: l.tail = l := by
  cases l with
  | nil => exact absurd rfl h
  | cons a t => rfl

theorem mem_of_getLast_eq {α : Type} {l : List α} {a : α} (h : l.getLast? = some a) :
    a ∈ l := by
  obtain ⟨hne, rfl⟩ := List.mem_getLast?_eq_getLast (l := l) (x := a) (by simp [h])
  exact List.getLast_mem hne

theorem scanSegs_eq_true_iff (x y : Int) (l : List SnakeBodySegment) :
    scanSegs x y l = true ↔ ∃ s ∈ l, s.x = x ∧ s.y = y := by
  induction l with
  | nil => simp [scanSegs]
  | cons s rest ih =>
    by_cases h : s.x = x ∧ s.y = y
    · simp [scanSegs, h]
    · simp [scanSegs, h, ih]

theorem snakeAdvance_length (g : Game) (b : SnakeBody) (d : snakeDirection) :
    (SnakeAdvance g b d).length = b.length + 1 := rfl

theorem snakeAdvance_grow (g : Game) (b : SnakeBody) (d : snakeDirection) :
    (SnakeAdvance g b d).grow = b.grow := rfl

theorem snakeAdvance_segments_length (g : Game) (b : SnakeBody) (d : snakeDirection) :
    (SnakeAdvance g b d).segments.length = b.segments.length + 1 := rfl

theorem snakeRemoveTail_length (b : SnakeBody) :
    (SnakeRemoveTail b).length = b.length - 1 := rfl

theorem snakeRemoveTail_grow (b : SnakeBody) :
    (SnakeRemoveTail b).grow = b.grow := rfl

theorem snakeRemoveTail_segments_length (b : SnakeBody) :
    (SnakeRemoveTail b).segments.length =
      min (b.length - 2).toNat b.segments.length + 1 := by
  simp [SnakeRemoveTail, SnakeBody.segments, List.length_tail, List.length_take]

-- Claim theorems.

/-- Claim C1: in the playing phase, `SnakeCheckDeath` on the game's own
(pre-move) snake returns true iff the wrapped next head cell for the
requested direction equals the cell of some current non-head segment —
in particular true whenever it equals the current tail segment's cell
(the cell the upcoming `RemoveTail` is about to vacate). -/
theorem snakeCheckDeath_spec (g : Game) (d : snakeDirection)
    (hstate : g.state = .StateInGame) (hne : g.SnakeBody.rest ≠ []) :
    (SnakeCheckDeath g g.SnakeBody d = true ↔ selfCollisionSpec g d) ∧
    (∀ tl, g.SnakeBody.rest.getLast? = some tl →
      tl.x = (SnakeGetNextPos g g.SnakeBody d).1 →
      tl.y = (SnakeGetNextPos g g.SnakeBody d).2 →
      SnakeCheckDeath g g.SnakeBody d = true) := by
  have hiff : SnakeCheckDeath g g.SnakeBody d = true ↔ selfCollisionSpec g d := by
    simpa [SnakeCheckDeath, selfCollisionSpec] using
      scanSegs_eq_true_iff (SnakeGetNextPos g g.SnakeBody d).1
        (SnakeGetNextPos g g.SnakeBody d).2 g.SnakeBody.rest
  refine ⟨hiff, ?_⟩
  intro tl hlast hx hy
  exact hiff.mpr ⟨tl, mem_of_getLast_eq hlast, hx, hy⟩

/-- Witness for C1: a concrete playing-phase session (fresh snake at
(5, 5)), checked moving up. -/
theorem snakeCheckDeath_spec_witness :
    (c1G.state = .StateInGame ∧ c1G.SnakeBody.rest ≠ []) ∧
    ((SnakeCheckDeath c1G c1G.SnakeBody .UP = true ↔ selfCollisionSpec c1G .UP) ∧
     (∀ tl, c1G.SnakeBody.rest.getLast? = some tl →
       tl.x = (SnakeGetNextPos c1G c1G.SnakeBody .UP).1 →
       tl.y = (SnakeGetNextPos c1G c1G.SnakeBody .UP).2 →
       SnakeCheckDeath c1G c1G.SnakeBody .UP = true)) :=
  ⟨⟨rfl, by decide⟩, snakeCheckDeath_spec c1G .UP rfl (by decide)⟩

/-- Claim C2: when `SnakeMove` runs with `checkDeath = true` and the
self-collision check fires, the game is returned with only the state
changed to `StateGameEnd`: the body, score and food are untouched and
no random draw is consumed. -/
theorem snakeMove_death_no_mutation (g : Game) (d : snakeDirection) (cf : Bool)
    (r : ℕ → ℕ) (k fuel : ℕ)
    (h : SnakeCheckDeath g g.SnakeBody d = true) :
    SnakeMove g d true cf r k fuel = some ({ g with state := .StateGameEnd }, k) ∧
    (∀ g' k', SnakeMove g d true cf r k fuel = some (g', k') →
      g'.SnakeBody = g.SnakeBody ∧ g'.score = g.score ∧ g'.food = g.food ∧
      g'.state = .StateGameEnd) := by
  have h1 : SnakeMove g d true cf r k fuel =
      some ({ g with state := .StateGameEnd }, k) := by
    simp [SnakeMove, h, ChangeState]
  refine ⟨h1, ?_⟩
  intro g' k' h2
  rw [h1] at h2
  obtain ⟨h3, h4⟩ := Prod.mk.injEq .. ▸ Option.some.inj h2
  subst h3
  exact ⟨rfl, rfl, rfl, rfl⟩

/-- Witness for C2: moving the fresh snake down collides with its own
neck segment, and the call only flips the state. -/
theorem snakeMove_death_no_mutation_witness :
    SnakeCheckDeath c1G c1G.SnakeBody .DOWN = true ∧
    (SnakeMove c1G .DOWN true true rzero 0 5 =
        some ({ c1G with state := .StateGameEnd }, 0) ∧
     (∀ g' k', SnakeMove c1G .DOWN true true rzero 0 5 = some (g', k') →
       g'.SnakeBody = c1G.SnakeBody ∧ g'.score = c1G.score ∧ g'.food = c1G.food ∧
       g'.state = .StateGameEnd)) :=
  ⟨by decide, snakeMove_death_no_mutation c1G .DOWN true rzero 0 5 (by decide)⟩

/-- Claim C5: `SpawnSnake x y` always yields exactly the length-3 body
with segments at (x, y), (x, y+1), (x, y+2) head first, all facing up,
with head/middle/tail tiles `SnakeHeadUp`/`SnakeBodyUp`/`SnakeTailUp`
(the construction is total, so it never fails). -/
theorem spawnSnake_spec (x y : Int) :
    SpawnSnake x y =
      { head := { x := x, y := y, facing := .UP, tile := SnakeHeadUp, skeleton := false }
        rest := [{ x := x, y := y + 1, facing := .UP, tile := SnakeBodyUp, skeleton := false },
                 { x := x, y := y + 2, facing := .UP, tile := SnakeTailUp, skeleton := false }]
        grow := false
        length := 3 } ∧
    (SpawnSnake x y).length = 3 ∧
    (SpawnSnake x y).segments.length = 3 ∧
    (∀ s ∈ (SpawnSnake x y).segments, s.facing = .UP) := by
  refine ⟨rfl, rfl, rfl, ?_⟩
  intro s hs
  simp only [SpawnSnake, SnakeBody.segments, List.mem_cons, List.not_mem_nil, or_false] at hs
  rcases hs with rfl | rfl | rfl <;> rfl

/-- Counterexample for C8: on the length-1 body `c8B`, `SnakeRemoveTail`
does not fail closed — it silently returns a mutated body whose stored
length has been decremented to 0. -/
theorem snakeRemoveTail_short_silent :
    SnakeRemoveTail c8B = { c8B with length := 0 } ∧
    SnakeRemoveTail c8B ≠ c8B ∧
    (SnakeRemoveTail c8B).length = 0 ∧ c8B.length = 1 :=
  ⟨by decide, by decide, by decide, by decide⟩

/-- Claim C8 (amended): on any body of stored length ≤ 1,
`SnakeRemoveTail` signals no error: it truncates the chain to the head
segment alone and decrements the stored length (to 0 or below). -/
theorem snakeRemoveTail_short_behavior (b : SnakeBody) (h : b.length ≤ 1) :
    SnakeRemoveTail b = { b with rest := [], length := b.length - 1 } := by
  have hk : (b.length - 2).toNat = 0 := by omega
  simp [SnakeRemoveTail, SnakeBody.segments, hk, tailTileFor]

/-- Witness for C8: the amended behaviour at the concrete length-1
body. -/
theorem snakeRemoveTail_short_behavior_witness :
    c8B.length ≤ 1 ∧
    SnakeRemoveTail c8B = { c8B with rest := [], length := c8B.length - 1 } :=
  ⟨by decide, snakeRemoveTail_short_behavior c8B (by decide)⟩

theorem randDirLoop_up_left (r : ℕ → ℕ) :
    ∀ fuel k p, randDirLoop .UP r k fuel = some p → p.1 = .LEFT := by
  intro fuel
  induction fuel with
  | zero => intro k p h; simp [randDirLoop] at h
  | succ n ih =>
    intro k p h
    simp only [randDirLoop] at h
    by_cases h0 : intn r k 3 = 0
    · simp only [h0, if_pos rfl] at h
      simp at h
      exact ih _ _ h
    · by_cases h1 : intn r k 3 = 1
      · simp only [h0, h1, if_neg, if_pos rfl] at h
        simp [h0] at h
        exact ih _ _ h
      · simp only [h0, h1] at h
        simp at h
        obtain ⟨rfl, _⟩ := h
        rfl

/-- Claim C9 (code bug evidence): with the current direction `UP`, the
turn loop of `RandomSnakeDirection` draws from `rand.Intn(3)+1`, i.e.
only from {UP, DOWN, LEFT}, so for every random stream and fuel the
function can only ever return `UP` (continue straight) or `LEFT` —
`RIGHT` is unreachable, contradicting the uniform choice between the
two perpendicular directions that the claim (and the dead
`d == RIGHT` test in the Go switch) intend. -/
theorem randomSnakeDirection_up_never_right (r : ℕ → ℕ) (k fuel : ℕ)
    (p : snakeDirection × ℕ)
    (h : RandomSnakeDirection .UP r k fuel = some p) :
    p.1 = .UP ∨ p.1 = .LEFT := by
  simp only [RandomSnakeDirection] at h
  split at h
  · obtain ⟨h3, _⟩ := Prod.mk.injEq .. ▸ Option.some.inj h.symm
    left
    exact h3 ▸ rfl
  · right
    exact randDirLoop_up_left r fuel (k + 1) p h

/-- Witness for C9: the all-zero stream continues straight. -/
theorem randomSnakeDirection_up_never_right_witness :
    RandomSnakeDirection .UP rzero 0 1 = some (.UP, 1) ∧
    (snakeDirection.UP = .UP ∨ snakeDirection.UP = .LEFT) :=
  ⟨by decide, randomSnakeDirection_up_never_right rzero 0 1 (.UP, 1) (by decide)⟩

/-- Claim C10: `SnakeCheckDeath g b d` projects the next position from
the argument body `b` but scans the segments of the game's active snake
`g.SnakeBody`, not those of `b`: the result is invariant under changing
everything of `b` except its head, and on concrete games with the same
non-active `b` it flips with the active snake's segments (and scanning
`b` itself would give `false` here). -/
theorem snakeCheckDeath_uses_active_snake :
    (∀ (g : Game) (d : snakeDirection) (h : SnakeBodySegment)
        (s s' : List SnakeBodySegment) (gr gr' : Bool) (l l' : Int),
      SnakeCheckDeath g { head := h, rest := s, grow := gr, length := l } d =
        SnakeCheckDeath g { head := h, rest := s', grow := gr', length := l' } d) ∧
    SnakeCheckDeath c10G c10B .UP = true ∧
    SnakeCheckDeath c10G2 c10B .UP = false ∧
    SnakeCheckDeath { c10G with SnakeBody := c10B } c10B .UP = false ∧
    c10G.SnakeBody ≠ c10B ∧ c10G2 = { c10G with SnakeBody := c10B2 } := by
  refine ⟨?_, by decide, by decide, by decide, by decide, rfl⟩
  intro g d h s s' gr gr' l l'
  cases d <;> rfl

theorem spawnFood_shape (g : Game) (r : ℕ → ℕ) :
    ∀ fuel k g' k', SpawnFood g r k fuel = some (g', k') →
      g' = { g with food := g'.food } := by
  intro fuel
  induction fuel with
  | zero => intro k g' k' h; simp [SpawnFood] at h
  | succ n ih =>
    intro k g' k' h
    simp only [SpawnFood] at h
    split at h
    · exact ih _ _ _ h
    · obtain ⟨h3, h4⟩ := Prod.mk.injEq .. ▸ Option.some.inj h
      subst h3
      rfl

theorem spawnFood_result (g : Game) (hw : 2 ≤ g.width) (hh : 2 ≤ g.height) (r : ℕ → ℕ) :
    ∀ fuel k g' k', SpawnFood g r k fuel = some (g', k') →
      (∀ s ∈ g.SnakeBody.segments, ¬(s.x = g'.food.x ∧ s.y = g'.food.y)) ∧
      0 ≤ g'.food.x ∧ g'.food.x ≤ g.width - 2 ∧
      0 ≤ g'.food.y ∧ g'.food.y ≤ g.height - 2 := by
  intro fuel
  induction fuel with
  | zero => intro k g' k' h; simp [SpawnFood] at h
  | succ n ih =>
    intro k g' k' h
    simp only [SpawnFood] at h
    split at h
    · exact ih _ _ _ h
    · rename_i htaken
      obtain ⟨h3, h4⟩ := Prod.mk.injEq .. ▸ Option.some.inj h
      subst h3
      refine ⟨?_, ?_⟩
      · intro s hs hcontra
        exact htaken (List.any_eq_true.mpr ⟨s, hs, by simpa using hcontra⟩)
      · have hwx : 0 < (g.width - 1).toNat := by omega
        have hhy : 0 < (g.height - 1).toNat := by omega
        have hx := Nat.mod_lt (r k) hwx
        have hy := Nat.mod_lt (r (k + 1)) hhy
        simp only [intn, Int.ofNat_eq_natCast]
        omega

/-- Counterexample for C6: on the 3×3 board `c6G` whose snake occupies
only column 0, the cell (2, 2) is free, yet no random stream can ever
make `SpawnFood` return a food with x = 2 — `rand.Intn(width-1)` never
samples the last column, so not every grid cell is a possible sample. -/
theorem spawnFood_not_whole_grid :
    (∀ s ∈ c6G.SnakeBody.segments, ¬(s.x = 2 ∧ s.y = 2)) ∧
    ¬ ∃ (r : ℕ → ℕ) (k fuel : ℕ) (p : Game × ℕ),
        SpawnFood c6G r k fuel = some p ∧ p.1.food.x = 2 := by
  constructor
  · decide
  · rintro ⟨r, k, fuel, p, h, hx⟩
    have hb := spawnFood_result c6G (by decide) (by decide) r fuel k p.1 p.2 h
    have hw : c6G.width = 3 := rfl
    omega

/-- Claim C6 (amended): every terminating `SpawnFood` run returns a food
cell occupied by no segment of the active snake, with coordinates drawn
from `[0, width-2] × [0, height-2]` (the ranges of `rand.Intn(width-1)`
and `rand.Intn(height-1)`), and every free cell of that range is reached
by some random stream. -/
theorem spawnFood_spec_amended (g : Game) (hw : 2 ≤ g.width) (hh : 2 ≤ g.height) :
    foodSpawnSpec g ∧ foodReachSpec g := by
  constructor
  · intro r k fuel g' k' h
    exact spawnFood_result g hw hh r fuel k g' k' h
  · intro x y hx0 hx1 hy0 hy1 hfree
    have hxm : x.toNat < (g.width - 1).toNat := by omega
    have hym : y.toNat < (g.height - 1).toNat := by omega
    have hix : intn (fun i => List.getD [x.toNat, y.toNat] i 0) 0 (g.width - 1) = x := by
      show Int.ofNat (x.toNat % (g.width - 1).toNat) = x
      rw [Nat.mod_eq_of_lt hxm, Int.ofNat_eq_natCast]
      omega
    have hiy : intn (fun i => List.getD [x.toNat, y.toNat] i 0) 1 (g.height - 1) = y := by
      show Int.ofNat (y.toNat % (g.height - 1).toNat) = y
      rw [Nat.mod_eq_of_lt hym, Int.ofNat_eq_natCast]
      omega
    have htaken : (g.SnakeBody.segments.any fun s => s.x = x ∧ s.y = y) = false := by
      rw [List.any_eq_false]
      intro s hs
      simpa using hfree s hs
    simp only [SpawnFood, hix, hiy, htaken]
    rfl

/-- Witness for C6: the default 27×20 session. -/
theorem spawnFood_spec_amended_witness :
    (2 ≤ c1G.width ∧ 2 ≤ c1G.height) ∧ (foodSpawnSpec c1G ∧ foodReachSpec c1G) :=
  ⟨⟨by decide, by decide⟩, spawnFood_spec_amended c1G (by decide) (by decide)⟩

/-- Counterexample for C7: starting the dying phase with the fresh
length-5 snake `c7G` (skeletonization interval 2), after 10 update ticks
every segment is skeletal but the state is still `StateGameEnd` — the
transition to `StateGameOver` has *not* yet happened, contrary to the
claim. -/
theorem endGame_ten_ticks_not_gameover :
    ((iterEndGame 10 c7G rzero 0 5).map fun p =>
      (p.1.state, p.1.SnakeBody.segments.all fun s => s.skeleton)) =
        some (.StateGameEnd, true) ∧
    gameState.StateGameEnd ≠ .StateGameOver :=
  ⟨by decide, by decide⟩

/-- Claim C7 (amended): in the dying phase one not-yet-skeletal segment
is marked per 2-tick interval, head to tail — for the length-5 body the
skeleton masks after 2, 4, 6, 8, 10 ticks are exactly the head-to-tail
prefixes — and the transition to `StateGameOver` happens on tick 12, one
further interval after the last segment was marked on tick 10. -/
theorem endGame_skeleton_schedule :
    ((iterEndGame 2 c7G rzero 0 5).map fun p =>
      p.1.SnakeBody.segments.map fun s => s.skeleton) =
        some [true, false, false, false, false] ∧
    ((iterEndGame 4 c7G rzero 0 5).map fun p =>
      p.1.SnakeBody.segments.map fun s => s.skeleton) =
        some [true, true, false, false, false] ∧
    ((iterEndGame 6 c7G rzero 0 5).map fun p =>
      p.1.SnakeBody.segments.map fun s => s.skeleton) =
        some [true, true, true, false, false] ∧
    ((iterEndGame 8 c7G rzero 0 5).map fun p =>
      p.1.SnakeBody.segments.map fun s => s.skeleton) =
        some [true, true, true, true, false] ∧
    ((iterEndGame 10 c7G rzero 0 5).map fun p =>
      (p.1.state, p.1.SnakeBody.segments.map fun s => s.skeleton)) =
        some (.StateGameEnd, [true, true, true, true, true]) ∧
    ((iterEndGame 12 c7G rzero 0 5).map fun p =>
      (p.1.state, p.1.SnakeBody.segments.map fun s => s.skeleton)) =
        some (.StateGameOver, [true, true, true, true, true]) :=
  ⟨by decide, by decide, by decide, by decide, by decide, by decide⟩

theorem applyInput_ticks (g : Game) (keys : Keys) :
    (applyInput g keys).ticks = g.ticks := by
  simp only [applyInput]
  repeat' split
  all_goals rfl

theorem applyInput_ticksPerMovement (g : Game) (keys : Keys) :
    (applyInput g keys).ticksPerMovement = g.ticksPerMovement := by
  simp only [applyInput]
  repeat' split
  all_goals rfl

theorem randomSnakeTongue_fields (g : Game) (r : ℕ → ℕ) (k : ℕ) :
    (RandomSnakeTongue g r k).1.ticksPerMovement = g.ticksPerMovement ∧
    (RandomSnakeTongue g r k).1.score = g.score := by
  simp only [RandomSnakeTongue]
  repeat' split
  all_goals exact ⟨rfl, rfl⟩

/-- Counterexample for C4: `Reset` initialises `ticksPerMovement` to 30,
not 40 — the player session does not start at 40 ticks per move. -/
theorem ticksPerMovement_initial_not_forty :
    ((Reset c1G rzero 0 5).map fun p => p.1.ticksPerMovement) = some 30 ∧
    ((30 : Int) = 40 → False) :=
  ⟨by decide, by decide⟩

/-- Claim C4 (amended): after each movement step of `UpdateInGame` the
ticks-per-move value equals `40 - min score 33 = max (40 - score) 7`
(score 0 gives 40, score 33 gives 7, score 100 still gives 7), but the
session *starts* at 30 ticks per move (`Reset`), not 40; the speed-law
value 40 only applies from the first move onwards. -/
theorem speed_law (g : Game) (keys : Keys) (r : ℕ → ℕ) (k fuel : ℕ)
    (hmove : g.ticksPerMovement ≤ g.ticks + 1) :
    (∀ p, UpdateInGame g keys r k fuel = some p → speedLawSpec p.1) ∧
    (∀ g2 r2 k2 fuel2 p2, Reset g2 r2 k2 fuel2 = some p2 →
      p2.1.ticksPerMovement = 30) ∧
    max (40 - (0 : Int)) 7 = 40 ∧ max (40 - (33 : Int)) 7 = 7 ∧
    max (40 - (100 : Int)) 7 = 7 := by
  refine ⟨?_, ?_, by decide, by decide, by decide⟩
  · intro p hp
    simp only [UpdateInGame] at hp
    split at hp
    · split at hp
      · exact absurd hp (by simp)
      · rename_i g4 k4 hsm
        obtain rfl := Option.some.inj hp
        obtain ⟨e1, e2⟩ := randomSnakeTongue_fields
          { g4 with ticksPerMovement := 40 - min g4.score 33 } r k4
        rw [speedLawSpec, e1, e2]
        show (40 - min g4.score 33 : Int) = max (40 - g4.score) 7
        omega
    · rename_i hcond
      exfalso
      apply hcond
      show (applyInput g keys).ticks + 1 ≥ (applyInput g keys).ticksPerMovement
      rw [applyInput_ticks, applyInput_ticksPerMovement]
      omega
  · intro g2 r2 k2 fuel2 p2 h2
    have hshape := spawnFood_shape _ r2 fuel2 k2 p2.1 p2.2 h2
    rw [hshape]

theorem grow_update_length (b : SnakeBody) (v : Bool) :
    ({ b with grow := v } : SnakeBody).length = b.length := rfl

theorem grow_update_segments (b : SnakeBody) (v : Bool) :
    ({ b with grow := v } : SnakeBody).segments = b.segments := rfl

theorem snakeCheckFood_body (g : Game) :
    ((SnakeCheckFood g).2).SnakeBody = g.SnakeBody ∨
    ((SnakeCheckFood g).2).SnakeBody = { g.SnakeBody with grow := true } := by
  simp only [SnakeCheckFood]
  split
  · right; rfl
  · left; rfl

theorem snakeMove_no_death_body (g : Game) (d : snakeDirection) (cd cf : Bool)
    (r : ℕ → ℕ) (k fuel : ℕ)
    (hcond : ¬(cd = true ∧ SnakeCheckDeath g g.SnakeBody d = true)) :
    ∀ g' k', SnakeMove g d cd cf r k fuel = some (g', k') →
      g'.SnakeBody = (if g.SnakeBody.grow then
          { SnakeAdvance g g.SnakeBody d with grow := false }
        else SnakeAdvance g (SnakeRemoveTail g.SnakeBody) d) ∨
      g'.SnakeBody = { (if g.SnakeBody.grow then
          { SnakeAdvance g g.SnakeBody d with grow := false }
        else SnakeAdvance g (SnakeRemoveTail g.SnakeBody) d) with grow := true } := by
  intro g' k' h
  simp only [SnakeMove] at h
  rw [if_neg hcond] at h
  cases cf with
  | false =>
    rw [if_neg (by simp : ¬(false = true))] at h
    obtain ⟨h3, _⟩ := Prod.mk.injEq .. ▸ Option.some.inj h
    subst h3
    left
    rfl
  | true =>
    rw [if_pos rfl] at h
    cases hgrow : g.SnakeBody.grow with
    | true =>
      simp only [hgrow, reduceIte] at h ⊢
      split at h
      · have hshape := spawnFood_shape _ r fuel k g' k' h
        right
        have hB : g'.SnakeBody = { (SnakeCheckFood { g with SnakeBody := { SnakeAdvance g g.SnakeBody d with grow := false } }).2.SnakeBody with grow := true } := by
          rw [hshape]
        rcases snakeCheckFood_body { g with SnakeBody := { SnakeAdvance g g.SnakeBody d with grow := false } } with hb | hb <;>
          rw [hB, hb]
      · obtain ⟨h3, _⟩ := Prod.mk.injEq .. ▸ Option.some.inj h
        subst h3
        rcases snakeCheckFood_body { g with SnakeBody := { SnakeAdvance g g.SnakeBody d with grow := false } } with hb | hb
        · left; exact hb
        · right; exact hb
    | false =>
      simp only [hgrow, Bool.false_eq_true, if_false] at h ⊢
      split at h
      · have hshape := spawnFood_shape _ r fuel k g' k' h
        right
        have hB : g'.SnakeBody = { (SnakeCheckFood { g with SnakeBody := SnakeAdvance g (SnakeRemoveTail g.SnakeBody) d }).2.SnakeBody with grow := true } := by
          rw [hshape]
        rcases snakeCheckFood_body { g with SnakeBody := SnakeAdvance g (SnakeRemoveTail g.SnakeBody) d } with hb | hb <;>
          rw [hB, hb]
      · obtain ⟨h3, _⟩ := Prod.mk.injEq .. ▸ Option.some.inj h
        subst h3
        rcases snakeCheckFood_body { g with SnakeBody := SnakeAdvance g (SnakeRemoveTail g.SnakeBody) d } with hb | hb
        · left; exact hb
        · right; exact hb

/-- Claim C3: for a consistent body of length ≥ 3, a non-colliding
`SnakeMove` behaves as the Step protocol says — without pending growth
it performs `RemoveTail` then `Advance` and leaves both the stored
length and the chain length unchanged; with pending growth it performs
only `Advance`, nets +1 on both, and clears the grow flag before any
food check could re-set it (the flag is false at the end of every
`checkFood = false` call). -/
theorem snakeMove_step_length (g : Game) (d : snakeDirection) (cd : Bool)
    (r : ℕ → ℕ) (k fuel : ℕ)
    (hlen : 3 ≤ g.SnakeBody.length)
    (hcons : g.SnakeBody.length = (g.SnakeBody.segments.length : Int))
    (hnoc : cd = true → SnakeCheckDeath g g.SnakeBody d = false) :
    stepLengthSpec g d cd r k fuel := by
  have hcond : ¬(cd = true ∧ SnakeCheckDeath g g.SnakeBody d = true) := by
    rintro ⟨h1, h2⟩
    rw [hnoc h1] at h2
    exact absurd h2 (by simp)
  have hshape : SnakeMove g d cd false r k fuel = some ({ g with SnakeBody :=
      (if g.SnakeBody.grow then { SnakeAdvance g g.SnakeBody d with grow := false }
        else SnakeAdvance g (SnakeRemoveTail g.SnakeBody) d) }, k) := by
    simp only [SnakeMove]
    rw [if_neg hcond, if_neg (by simp : ¬(false = true))]
  refine ⟨?_, hshape, ?_⟩
  · intro cf g' k' h'
    have hbody := snakeMove_no_death_body g d cd cf r k fuel hcond g' k' h'
    cases hgrow : g.SnakeBody.grow with
    | true =>
      refine ⟨fun hfalse => absurd hfalse (by simp), fun _ => ?_⟩
      rcases hbody with hb | hb <;>
        rw [hb, if_pos hgrow] <;>
        exact ⟨rfl, rfl⟩
    | false =>
      refine ⟨fun _ => ?_, fun htrue => absurd htrue (by simp)⟩
      rcases hbody with hb | hb
      all_goals
        rw [hb, if_neg (by simp [hgrow] : ¬(g.SnakeBody.grow = true))]
        constructor
        · show g.SnakeBody.length - 1 + 1 = g.SnakeBody.length
          omega
        · show (SnakeAdvance g (SnakeRemoveTail g.SnakeBody) d).segments.length =
            g.SnakeBody.segments.length
          rw [snakeAdvance_segments_length, snakeRemoveTail_segments_length]
          omega
  · intro g' k' h'
    rw [hshape] at h'
    obtain ⟨h3, _⟩ := Prod.mk.injEq .. ▸ Option.some.inj h'
    subst h3
    cases hgrow : g.SnakeBody.grow with
    | true => rfl
    | false => exact hgrow

/-- Witness for C3: the fresh in-game session moving straight up. -/
theorem snakeMove_step_length_witness :
    (3 ≤ c1G.SnakeBody.length ∧
     c1G.SnakeBody.length = (c1G.SnakeBody.segments.length : Int) ∧
     SnakeCheckDeath c1G c1G.SnakeBody .UP = false) ∧
    stepLengthSpec c1G .UP true rzero 0 5 :=
  ⟨⟨by decide, by decide, by decide⟩,
    snakeMove_step_length c1G .UP true rzero 0 5 (by decide) (by decide)
      (fun _ => by decide)⟩

/-- Witness for C4: a session one tick before its movement step. -/
theorem speed_law_witness :
    c4G.ticksPerMovement ≤ c4G.ticks + 1 ∧
    ((∀ p, UpdateInGame c4G c4K rzero 0 5 = some p → speedLawSpec p.1) ∧
     (∀ g2 r2 k2 fuel2 p2, Reset g2 r2 k2 fuel2 = some p2 →
       p2.1.ticksPerMovement = 30) ∧
     max (40 - (0 : Int)) 7 = 40 ∧ max (40 - (33 : Int)) 7 = 7 ∧
     max (40 - (100 : Int)) 7 = 7) :=
  ⟨by decide, speed_law c4G c4K rzero 0 5 (by decide)⟩

end Snake
